import Mathlib

/-!
Shallow embedding of the Arduino chatbot backend
(`backend/main.py`, `backend/providers/groq_provider.py`,
`backend/providers/openai_provider.py`).

Modelling conventions:
* Python dict/JSON response bodies are the inductive `Json`.
* Python exceptions are `PyError`; `raise Exception(msg)` is
  `PyError.exception msg`, `raise ValueError(msg)` is `PyError.valueError msg`,
  a failed dict subscript `d[k]` is `PyError.keyError k`, a failed list index
  is `PyError.indexError`, subscripting a non-container is `PyError.typeError`.
* The process environment (`os.getenv`) is a function `Env`; an unset variable
  is `none`.
* The single outbound HTTP call an adapter makes is represented by an
  `UpstreamOutcome` argument: the adapter performs exactly one call, and this
  value is what that one call produced (`httpx` timeout, an HTTP error status
  raised by `raise_for_status`, or a 2xx reply whose parsed JSON body is
  carried by `ok`).
* Fallible Python code returns `Except PyError _`.
-/

/-- JSON values, for upstream response bodies (`response.json()`).
Numbers are modelled as integers; no claim involves fractional payloads. -/
inductive Json where
  | null : Json
  | bool (b : Bool) : Json
  | num (n : Int) : Json
  | str (s : String) : Json
  | arr (xs : List Json) : Json
  | obj (fields : List (String × Json)) : Json
deriving Repr, BEq

/-- Python exception values, distinguished by exception class. -/
inductive PyError where
  | exception (msg : String)
  | valueError (msg : String)
  | keyError (key : String)
  | indexError (msg : String)
  | typeError (msg : String)
  | attributeError (msg : String)
  | validationError (msg : String)
deriving Repr, DecidableEq

/-- Python `str(e)` on an exception, as used by `HTTPException(500, detail=str(e))`.
`str` of a `KeyError` wraps the missing key in single quotes. -/
def PyError.str : PyError → String
  | .exception m => m
  | .valueError m => m
  | .keyError k => "\x27" ++ k ++ "\x27"
  | .indexError m => m
  | .typeError m => m
  | .attributeError m => m
  | .validationError m => m

/-- FastAPI `HTTPException(status_code, detail)`. -/
structure HTTPException where
  status_code : Nat
  detail : String
deriving Repr, DecidableEq

/-- One conversation message, a dict `\x7b"role": ..., "content": ...\x7d`. -/
structure ChatTurn where
  role : String
  content : String
deriving Repr, DecidableEq

/-- The process environment: `os.getenv` returns `none` for an unset variable. -/
abbrev Env := String → Option String

/-- The outcome of the one outbound HTTP POST an adapter performs. -/
inductive UpstreamOutcome where
  | timeout
  | httpError (status : Nat) (body : String)
  | ok (data : Json)
deriving Repr

/-- Python dict subscript `d[k]`: `KeyError` when the key is missing,
`TypeError` when the value is not a dict. -/
def Json.getItem : Json → String → Except PyError Json
  | .obj fields, k =>
    match fields.lookup k with
    | some v => .ok v
    | none => .error (.keyError k)
  | _, _ => .error (.typeError "value is not subscriptable by a string key")

/-- Python list subscript `xs[i]`. -/
def Json.getIdx : Json → Nat → Except PyError Json
  | .arr xs, i =>
    match xs.get? i with
    | some v => .ok v
    | none => .error (.indexError "list index out of range")
  | _, _ => .error (.typeError "value is not subscriptable by an integer index")

/-- Python `k in d` on a parsed JSON body. Faithful for dict bodies, the only
case the code reaches it with; on a non-dict it is modelled as `none`. -/
def Json.lookupKey : Json → String → Option Json
  | .obj fields, k => fields.lookup k
  | _, _ => none

/-- Python `d.get(k, default)`: an `AttributeError` when `d` is not a dict. -/
def Json.dictGet : Json → String → Json → Except PyError Json
  | .obj fields, k, default => .ok ((fields.lookup k).getD default)
  | _, _, _ => .error (.attributeError "value has no attribute get")

/-- Hexadecimal digit character (lowercase), for Python-style escapes. -/
def hexDigitChar (n : Nat) : Char :=
  if n < 10 then Char.ofNat (48 + n) else Char.ofNat (87 + n)

/-- Escape of one character inside a Python `repr()` string literal quoted by
`quote`: the backslash, the chosen quote, newline, carriage return and tab get
two-character escapes, remaining control characters (ASCII below 32, and 127)
become lowercase `\xNN`, and every other character stands for itself (Python
additionally escapes non-printable non-ASCII characters, which none of the
strings this program formats contain). -/
def pyCharEscape (quote : Char) (c : Char) : String :=
  if c = Char.ofNat 92 then "\\\\"
  else if c = quote then "\\" ++ String.mk [quote]
  else if c = Char.ofNat 10 then "\\n"
  else if c = Char.ofNat 13 then "\\r"
  else if c = Char.ofNat 9 then "\\t"
  else if c.toNat < 32 || c.toNat = 127 then
    "\\x" ++ String.mk [hexDigitChar (c.toNat / 16 % 16), hexDigitChar (c.toNat % 16)]
  else String.mk [c]

/-- Quote character Python `repr()` chooses for a string: single quotes,
unless the string contains a single quote and no double quote. -/
def pyQuoteChar (s : String) : Char :=
  if s.data.contains (Char.ofNat 39) && ! s.data.contains (Char.ofNat 34) then Char.ofNat 34
  else Char.ofNat 39

/-- Python `repr()` of a string: the chosen quote around the escaped
characters. -/
def pyReprString (s : String) : String :=
  String.mk [pyQuoteChar s] ++ String.join (s.data.map (pyCharEscape (pyQuoteChar s))) ++
    String.mk [pyQuoteChar s]

mutual

/-- Python `repr()` of a JSON value (`None`, `True`/`False`, the integer
digits, the quoted-and-escaped string, `[...]` with comma-separated element
reprs, or a dict display with comma-separated `repr(key): repr(value)`
entries). -/
def Json.pyRepr : Json → String
  | .null => "None"
  | .bool true => "True"
  | .bool false => "False"
  | .num n => toString n
  | .str s => pyReprString s
  | .arr xs => "[" ++ pyReprList xs ++ "]"
  | .obj fields => "\x7b" ++ pyReprFields fields ++ "\x7d"

/-- Comma-separated `repr` of the elements of a JSON array. -/
def pyReprList : List Json → String
  | [] => ""
  | [x] => Json.pyRepr x
  | x :: xs => Json.pyRepr x ++ ", " ++ pyReprList xs

/-- Comma-separated `repr(key): repr(value)` of the entries of a JSON dict. -/
def pyReprFields : List (String × Json) → String
  | [] => ""
  | [(k, v)] => pyReprString k ++ ": " ++ Json.pyRepr v
  | (k, v) :: fields => pyReprString k ++ ": " ++ Json.pyRepr v ++ ", " ++ pyReprFields fields

end

/-- Python `str()` applied to a JSON value, as in an f-string: the string
itself for strings, and `repr` otherwise (`str` and `repr` coincide on
`None`, booleans, integers, lists and dicts). -/
def Json.pyStr : Json → String
  | .str s => s
  | j => j.pyRepr

/-- `data["choices"][0]["message"]["content"]`, the completion-text extraction
both adapters perform on the parsed 2xx body. -/
def Json.firstChoiceContent (data : Json) : Except PyError Json := do
  let choices ← data.getItem "choices"
  let first ← choices.getIdx 0
  let message ← first.getItem "message"
  message.getItem "content"

/-- An adapter's return value, the dict
`\x7b"response": ..., "model": ...\x7d`. The `response` entry is the JSON
value extracted from the body, passed through verbatim. -/
structure ChatResult where
  response : Json
  model : String
deriving Repr

/-- The JSON payload each adapter POSTs upstream. Sampling floats are
modelled as exact rationals. -/
structure Payload where
  model : String
  messages : List ChatTurn
  temperature : ℚ
  max_tokens : Nat
  top_p : Nat
  stream : Bool

/-! ## `backend/providers/groq_provider.py` -/

structure GroqProvider where
  api_key : String
deriving Repr

namespace GroqProvider

def BASE_URL : String := "https://api.groq.com/openai/v1/chat/completions"

def AVAILABLE_MODELS : List (String × String) :=
  [("llama-3.1-8b-instant", "Llama 3.1 8B — Fast & Free ⚡"),
   ("llama-3.3-70b-versatile", "Llama 3.3 70B — Smarter 🧠"),
   ("gemma2-9b-it", "Gemma 2 9B — Google model 🔵"),
   ("mixtral-8x7b-32768", "Mixtral 8x7B — Long context 📄")]

def DEFAULT_MODEL : String := "llama-3.1-8b-instant"

/-- `GroqProvider.__init__`: reads `GROQ_API_KEY`; `if not self.api_key`
(unset, i.e. `None`, or the empty string) raises `ValueError`. -/
def init (env : Env) : Except PyError GroqProvider :=
  match env "GROQ_API_KEY" with
  | none =>
    .error (.valueError ("❌ GROQ_API_KEY not found!\n" ++
      "Get your free key from: https://console.groq.com/keys\n" ++
      "Then add it to your .env file: GROQ_API_KEY=your_key_here"))
  | some k =>
    if k = "" then
      .error (.valueError ("❌ GROQ_API_KEY not found!\n" ++
        "Get your free key from: https://console.groq.com/keys\n" ++
        "Then add it to your .env file: GROQ_API_KEY=your_key_here"))
    else .ok { api_key := k }

/-- `selected_model = model or self.DEFAULT_MODEL` followed by
`if selected_model not in self.AVAILABLE_MODELS: selected_model = self.DEFAULT_MODEL`.
Python `or` treats `None` and `""` as falsy. -/
def resolveModel (model : Option String) : String :=
  let selected :=
    match model with
    | none => DEFAULT_MODEL
    | some m => if m = "" then DEFAULT_MODEL else m
  if (AVAILABLE_MODELS.lookup selected).isSome then selected else DEFAULT_MODEL

/-- The `payload` dict built by `GroqProvider.chat` and POSTed to `BASE_URL`. -/
def buildPayload (messages : List ChatTurn) (model : Option String) : Payload :=
  { model := resolveModel model
    messages := messages
    temperature := 7 / 10
    max_tokens := 1024
    top_p := 1
    stream := false }

/-- `GroqProvider.chat`: model resolution, then the single POST whose outcome
is `upstream`, classifying timeout and HTTP error statuses, then extraction of
`data["choices"][0]["message"]["content"]` from the 2xx body — the body is
used with no check for an embedded error object. -/
def chat (_p : GroqProvider) (_messages : List ChatTurn) (model : Option String)
    (upstream : UpstreamOutcome) : Except PyError ChatResult :=
  let selected_model := resolveModel model
  match upstream with
  | .timeout => .error (.exception "⏱️ Groq API timeout. Please try again.")
  | .httpError status body =>
    if status = 401 then
      .error (.exception "🔑 Invalid GROQ_API_KEY. Check your .env file.")
    else if status = 429 then
      .error (.exception "🚦 Groq rate limit reached. Wait a moment and try again.")
    else if status = 503 then
      .error (.exception "🔧 Groq service unavailable. Try another provider.")
    else
      .error (.exception s!"❌ Groq API error {status}: {body}")
  | .ok data => do
    let content ← data.firstChoiceContent
    .ok { response := content, model := selected_model }

/-- `GroqProvider.list_models`. -/
def list_models : List (String × String) := AVAILABLE_MODELS

end GroqProvider

/-! ## `backend/providers/openai_provider.py` (class `OpenRouterProvider`) -/

structure OpenRouterProvider where
  api_key : String
  site_url : String
  site_name : String
deriving Repr

namespace OpenRouterProvider

def BASE_URL : String := "https://openrouter.ai/api/v1/chat/completions"

def AVAILABLE_MODELS : List (String × String) :=
  [("mistralai/mistral-7b-instruct:free", "Mistral 7B — Fast & reliable ⚡ (FREE)"),
   ("meta-llama/llama-3-8b-instruct:free", "Llama 3 8B — Great for students 🦙 (FREE)"),
   ("meta-llama/llama-3.1-8b-instruct:free", "Llama 3.1 8B — Improved version 🦙 (FREE)"),
   ("google/gemma-2-9b-it:free", "Gemma 2 9B — Google model 🔵 (FREE)"),
   ("microsoft/phi-3-mini-128k-instruct:free", "Phi-3 Mini — Small but smart 🔬 (FREE)"),
   ("qwen/qwen-2-7b-instruct:free", "Qwen 2 7B — Multilingual 🌍 (FREE)"),
   ("mistralai/mixtral-8x7b-instruct", "Mixtral 8x7B — Long context 📄 (Credits)"),
   ("openai/gpt-3.5-turbo", "GPT-3.5 Turbo — OpenAI 🟢 (Credits)")]

def DEFAULT_MODEL : String := "mistralai/mistral-7b-instruct:free"

/-- `OpenRouterProvider.__init__`: reads `OPENROUTER_API_KEY` (absent or empty
raises `ValueError`), then `SITE_URL` and `SITE_NAME` with defaults. -/
def init (env : Env) : Except PyError OpenRouterProvider :=
  match env "OPENROUTER_API_KEY" with
  | none =>
    .error (.valueError ("❌ OPENROUTER_API_KEY not found!\n" ++
      "Get your free key from: https://openrouter.ai/keys\n" ++
      "Then add it to your .env file: OPENROUTER_API_KEY=your_key_here"))
  | some k =>
    if k = "" then
      .error (.valueError ("❌ OPENROUTER_API_KEY not found!\n" ++
        "Get your free key from: https://openrouter.ai/keys\n" ++
        "Then add it to your .env file: OPENROUTER_API_KEY=your_key_here"))
    else
      .ok { api_key := k
            site_url := (env "SITE_URL").getD "http://localhost:8000"
            site_name := (env "SITE_NAME").getD "Arduino Chatbot" }

/-- Same two-line resolution as the Groq adapter, against this catalog. -/
def resolveModel (model : Option String) : String :=
  let selected :=
    match model with
    | none => DEFAULT_MODEL
    | some m => if m = "" then DEFAULT_MODEL else m
  if (AVAILABLE_MODELS.lookup selected).isSome then selected else DEFAULT_MODEL

/-- The `payload` dict built by `OpenRouterProvider.chat` (no `stream` key;
modelled with the same shape, `stream := false`, since the upstream default is
non-streaming). -/
def buildPayload (messages : List ChatTurn) (model : Option String) : Payload :=
  { model := resolveModel model
    messages := messages
    temperature := 7 / 10
    max_tokens := 1024
    top_p := 1
    stream := false }

/-- `OpenRouterProvider.chat`: model resolution, the single POST, HTTP error
classification, then — before extraction — the check
`if "error" in data: raise Exception(f"❌ OpenRouter error: ...")` for an
error object embedded in a 2xx body. -/
def chat (_p : OpenRouterProvider) (_messages : List ChatTurn) (model : Option String)
    (upstream : UpstreamOutcome) : Except PyError ChatResult :=
  let selected_model := resolveModel model
  match upstream with
  | .timeout =>
    .error (.exception ("⏱️ OpenRouter timeout.\n" ++
      "Free models can be slow sometimes. Try again or switch to Groq."))
  | .httpError status body =>
    if status = 401 then
      .error (.exception "🔑 Invalid OPENROUTER_API_KEY. Check your .env file.")
    else if status = 402 then
      .error (.exception ("💳 No credits left on OpenRouter.\n" ++
        "Switch to a free model (models ending in \x27:free\x27) or add credits."))
    else if status = 429 then
      .error (.exception "🚦 OpenRouter rate limit reached. Wait a moment and try again.")
    else if status = 503 then
      .error (.exception ("🔧 OpenRouter model unavailable.\n" ++
        "Try a different model or switch to Groq provider."))
    else
      .error (.exception s!"❌ OpenRouter API error {status}: {body}")
  | .ok data =>
    match data.lookupKey "error" with
    | some err => do
      let error_msg ← err.dictGet "message" (.str "Unknown error")
      .error (.exception ("❌ OpenRouter error: " ++ error_msg.pyStr))
    | none => do
      let content ← data.firstChoiceContent
      .ok { response := content, model := selected_model }

/-- `OpenRouterProvider.list_models`. -/
def list_models : List (String × String) := AVAILABLE_MODELS

/-- `OpenRouterProvider.list_free_models`: the catalog filtered to identifiers
containing `":free"` (substring containment, modelled on character lists). -/
def list_free_models : List (String × String) :=
  AVAILABLE_MODELS.filter (fun kv => decide ((":free").toList <:+: kv.fst.toList))

end OpenRouterProvider

/-! ## `backend/main.py` -/

/-- The fixed Arduino system prompt (`ARDUINO_SYSTEM_PROMPT`), verbatim:
a triple-quoted string opening and closing with a newline. -/
def ARDUINO_SYSTEM_PROMPT : String :=
  "\nYou are an expert Arduino teaching assistant designed for international school students.\nYour role is to:\n- Explain Arduino concepts in simple, clear language\n- Help students with Arduino code, circuits, and projects\n- Answer questions about sensors, actuators, motors, LEDs, and other components\n- Debug Arduino code and explain errors\n- Suggest beginner-friendly projects\n- Use examples and analogies to make learning fun\n\nAlways:\n- Be encouraging and patient\n- Break complex topics into simple steps\n- Provide working code examples when asked\n- Explain what each line of code does\n- Suggest safety precautions when relevant\n\nYou ONLY answer questions related to Arduino, electronics, and programming.\nIf asked about unrelated topics, politely redirect the student to Arduino topics.\n"

/-- `class ChatRequest(BaseModel)`. -/
structure ChatRequest where
  message : String
  provider : String
  model : Option String
  conversation_history : List ChatTurn
deriving Repr

/-- Pydantic construction of a `ChatRequest` from a request body: an omitted
field (`none` here) takes the field default declared in `main.py`
(`provider = "groq"`, `model = None`, `conversation_history = []`). -/
def ChatRequest.fromFields (message : String) (provider : Option String)
    (model : Option (Option String)) (conversation_history : Option (List ChatTurn)) :
    ChatRequest :=
  { message := message
    provider := provider.getD "groq"
    model := model.getD none
    conversation_history := conversation_history.getD [] }

/-- `class ChatResponse(BaseModel)`. -/
structure ChatResponse where
  response : String
  provider : String
  model : String
deriving Repr, DecidableEq

/-- An exception propagating out of the endpoint body: either an
`HTTPException` (re-raised as-is) or any other Python exception (wrapped). -/
inductive Raised where
  | http (e : HTTPException)
  | py (e : PyError)
deriving Repr

/-- The resolved adapter instance returned by `get_provider`. -/
inductive Provider where
  | groq (p : GroqProvider)
  | openrouter (p : OpenRouterProvider)
deriving Repr

/-- Dispatch `provider.chat(messages=..., model=...)` to the adapter class. -/
def Provider.chat : Provider → List ChatTurn → Option String → UpstreamOutcome →
    Except PyError ChatResult
  | .groq p, messages, model, upstream => p.chat messages model upstream
  | .openrouter p, messages, model, upstream => p.chat messages model upstream

/-- Python `str.lower()`, modelled on the character list (ASCII case
mapping, which covers every identifier the code compares). -/
def pyLower (s : String) : String :=
  String.mk (s.data.map Char.toLower)

/-- `get_provider`: lowercase the name, construct the matching adapter class
(whose `__init__` may raise `ValueError`), else raise
`HTTPException(400, ...)` naming the valid identifiers. -/
def get_provider (env : Env) (provider_name : String) : Except Raised Provider :=
  let provider_name := pyLower provider_name
  if provider_name = "groq" then
    ((GroqProvider.init env).map Provider.groq).mapError Raised.py
  else if provider_name = "openrouter" then
    ((OpenRouterProvider.init env).map Provider.openrouter).mapError Raised.py
  else
    .error (.http { status_code := 400
                    detail := "Unknown provider: \x27" ++ provider_name ++
                      "\x27. Use: groq | openrouter" })

/-- Python list slice `xs[-n:]` for `n > 0`: the last `min(len(xs), n)`
elements. -/
def sliceLast (xs : List ChatTurn) (n : Nat) : List ChatTurn :=
  xs.drop (xs.length - n)

/-- The turn sequence the `chat` endpoint builds: the system-prompt turn, then
`request.conversation_history[-10:]`, then the user turn with
`request.message`. -/
def buildMessages (request : ChatRequest) : List ChatTurn :=
  let messages : List ChatTurn := [{ role := "system", content := ARDUINO_SYSTEM_PROMPT }]
  let history := sliceLast request.conversation_history 10
  let messages := messages ++ history
  messages ++ [{ role := "user", content := request.message }]

/-- Construction of the endpoint result
`ChatResponse(response=result["response"], provider=request.provider, model=result["model"])`;
pydantic validates that the `response` field is a string. -/
def mkChatResponse (result : ChatResult) (provider : String) :
    Except PyError ChatResponse :=
  match result.response with
  | .str s => .ok { response := s, provider := provider, model := result.model }
  | _ => .error (.validationError "response field requires a string")

/-- The `try:` body of the `chat` endpoint. -/
def chatBody (env : Env) (upstream : UpstreamOutcome) (request : ChatRequest) :
    Except Raised ChatResponse := do
  let provider ← get_provider env request.provider
  let messages := buildMessages request
  let result ← (Provider.chat provider messages request.model upstream).mapError Raised.py
  (mkChatResponse result request.provider).mapError Raised.py

/-- The `POST /chat` endpoint: the `try:` body with
`except HTTPException: raise` and
`except Exception as e: raise HTTPException(status_code=500, detail=str(e))`. -/
def chat (env : Env) (upstream : UpstreamOutcome) (request : ChatRequest) :
    Except HTTPException ChatResponse :=
  match chatBody env upstream request with
  | .ok r => .ok r
  | .error (.http e) => .error e
  | .error (.py e) => .error { status_code := 500, detail := e.str }

/-- One entry of the `GET /providers` listing. -/
structure ProviderInfo where
  name : String
  description : String
  default_model : String
  requires_api_key : Bool
deriving Repr, DecidableEq

/-- `list_providers` (`GET /providers`), with its hard-coded entries. -/
def list_providers : List ProviderInfo :=
  [{ name := "groq"
     description := "Fast & free - Best for students ⚡"
     default_model := "llama3-8b-8192"
     requires_api_key := true },
   { name := "openrouter"
     description := "Multiple free models available 🌐"
     default_model := "mistralai/mistral-7b-instruct:free"
     requires_api_key := true }]

/-- Follows the spec's words, for comparison with the code: the spec's
classified failure taxonomy (`Timeout`, `AuthenticationFailed`, `RateLimited`,
`QuotaExceeded`, `ServiceUnavailable`, `UpstreamError`) corresponds in the
code to errors an adapter raises deliberately via `raise Exception(message)`;
builtin exceptions escaping extraction (`KeyError`, `IndexError`,
`TypeError`, ...) are not classified failures. -/
def specClassifiedError : PyError → Bool
  | .exception _ => true
  | _ => false

/-- A success body: HTTP 200 with one completion, as in the spec's scenario. -/
def okBody : Json :=
  .obj [("choices",
    .arr [.obj [("message", .obj [("content", .str "Use pinMode and digitalWrite.")])]])]

/-- An HTTP 200 body carrying an embedded error object instead of choices. -/
def errBody : Json :=
  .obj [("error", .obj [("message", .str "no route")])]

/-- An HTTP 200 body carrying BOTH an embedded error object and valid
choices. -/
def errChoicesBody : Json :=
  .obj [("error", .obj [("message", .str "no route")]),
    ("choices",
      .arr [.obj [("message", .obj [("content", .str "Use pinMode and digitalWrite.")])]])]

/-! ## Theorems -/

/-- The model identifier the Groq adapter resolves is always a catalog key. -/
theorem groq_resolveModel_mem (hint : Option String) :
    (GroqProvider.AVAILABLE_MODELS.lookup (GroqProvider.resolveModel hint)).isSome = true := by
  simp only [GroqProvider.resolveModel]
  split
  · assumption
  · decide

/-- The model identifier the OpenRouter adapter resolves is always a catalog key. -/
theorem openrouter_resolveModel_mem (hint : Option String) :
    (OpenRouterProvider.AVAILABLE_MODELS.lookup (OpenRouterProvider.resolveModel hint)).isSome = true := by
  simp only [OpenRouterProvider.resolveModel]
  split
  · assumption
  · decide

/-- C1: for every ChatRequest, the turn sequence built by the `/chat` endpoint
and handed to the selected adapter is exactly one system turn holding the
fixed Arduino system prompt, then the last `min(len(history), 10)` turns of
`conversation_history` in original relative order (a suffix of that length),
then one user turn holding `request.message`; and `chatBody` invokes the
resolved adapter with exactly this sequence. -/
theorem chat_messages_structure (request : ChatRequest) :
    (∃ tail : List ChatTurn,
      buildMessages request =
        { role := "system", content := ARDUINO_SYSTEM_PROMPT } ::
          (tail ++ [{ role := "user", content := request.message }]) ∧
      tail.length = min request.conversation_history.length 10 ∧
      tail <:+ request.conversation_history) ∧
    (∀ env upstream, chatBody env upstream request =
      (get_provider env request.provider).bind (fun provider =>
        ((Provider.chat provider (buildMessages request) request.model upstream).mapError
            Raised.py).bind (fun result =>
          (mkChatResponse result request.provider).mapError Raised.py))) := by
  constructor
  · refine ⟨sliceLast request.conversation_history 10, ?_, ?_, ?_⟩
    · simp [buildMessages]
    · simp only [sliceLast, List.length_drop]
      omega
    · exact List.drop_suffix _ _
  · intro env upstream
    rfl

/-- C4 (code bug): the `GET /providers` listing hard-codes the groq default
model as `"llama3-8b-8192"`, which differs from the Groq adapter's configured
`DEFAULT_MODEL` (`"llama-3.1-8b-instant"`) and is not a key of the Groq
catalog at all; the openrouter entry does agree with its adapter. -/
theorem providers_groq_default_model_stale :
    (list_providers.map ProviderInfo.default_model) =
      ["llama3-8b-8192", "mistralai/mistral-7b-instruct:free"] ∧
    GroqProvider.DEFAULT_MODEL = "llama-3.1-8b-instant" ∧
    "llama3-8b-8192" ≠ GroqProvider.DEFAULT_MODEL ∧
    GroqProvider.AVAILABLE_MODELS.lookup "llama3-8b-8192" = none ∧
    OpenRouterProvider.DEFAULT_MODEL = "mistralai/mistral-7b-instruct:free" ∧
    (OpenRouterProvider.AVAILABLE_MODELS.lookup OpenRouterProvider.DEFAULT_MODEL).isSome = true := by
  refine ⟨rfl, rfl, by decide, by decide, rfl, by decide⟩

/-- C9: whatever model hint a caller supplies, the model identifier placed in
the outbound payload of either adapter is a key of that adapter's catalog,
and each adapter's configured default is itself a catalog key. -/
theorem payload_model_in_catalog (messages : List ChatTurn) (hint : Option String) :
    (GroqProvider.AVAILABLE_MODELS.lookup
      (GroqProvider.buildPayload messages hint).model).isSome = true ∧
    (OpenRouterProvider.AVAILABLE_MODELS.lookup
      (OpenRouterProvider.buildPayload messages hint).model).isSome = true ∧
    (GroqProvider.AVAILABLE_MODELS.lookup GroqProvider.DEFAULT_MODEL).isSome = true ∧
    (OpenRouterProvider.AVAILABLE_MODELS.lookup OpenRouterProvider.DEFAULT_MODEL).isSome = true :=
  ⟨groq_resolveModel_mem hint, openrouter_resolveModel_mem hint,
   by decide, by decide⟩

/-- Bind on an `Except` error short-circuits (do-block reduction). -/
theorem except_bind_error {ε α β : Type} (e : ε) (f : α → Except ε β) :
    (do let x ← Except.error e; f x) = (Except.error e : Except ε β) := rfl

/-- Bind on an `Except` success applies the continuation (do-block reduction). -/
theorem except_bind_ok {ε α β : Type} (a : α) (f : α → Except ε β) :
    (do let x ← Except.ok a; f x) = f a := rfl

/-- On an HTTP error status the Groq adapter always raises. -/
theorem groq_chat_httpError_isError (p : GroqProvider)
    (messages : List ChatTurn) (hint : Option String) (status : Nat) (body : String) :
    ∃ e, p.chat messages hint (.httpError status body) = .error e := by
  simp only [GroqProvider.chat]
  split
  · exact ⟨_, rfl⟩
  split
  · exact ⟨_, rfl⟩
  split
  · exact ⟨_, rfl⟩
  exact ⟨_, rfl⟩

/-- On an HTTP error status the OpenRouter adapter always raises. -/
theorem openrouter_chat_httpError_isError (q : OpenRouterProvider)
    (messages : List ChatTurn) (hint : Option String) (status : Nat) (body : String) :
    ∃ e, q.chat messages hint (.httpError status body) = .error e := by
  simp only [OpenRouterProvider.chat]
  split
  · exact ⟨_, rfl⟩
  split
  · exact ⟨_, rfl⟩
  split
  · exact ⟨_, rfl⟩
  split
  · exact ⟨_, rfl⟩
  exact ⟨_, rfl⟩

/-- Resolving no hint gives the Groq default. -/
theorem groq_resolveModel_none :
    GroqProvider.resolveModel none = GroqProvider.DEFAULT_MODEL := by
  decide

/-- Resolving no hint gives the OpenRouter default. -/
theorem openrouter_resolveModel_none :
    OpenRouterProvider.resolveModel none = OpenRouterProvider.DEFAULT_MODEL := by
  decide

/-- A hint that is not a Groq catalog key resolves to the Groq default. -/
theorem groq_resolveModel_fallback (m : String)
    (h : GroqProvider.AVAILABLE_MODELS.lookup m = none) :
    GroqProvider.resolveModel (some m) = GroqProvider.DEFAULT_MODEL := by
  by_cases hm : m = ""
  · subst hm; decide
  · simp [GroqProvider.resolveModel, hm, h]

/-- A hint that is not an OpenRouter catalog key resolves to the OpenRouter
default. -/
theorem openrouter_resolveModel_fallback (m : String)
    (h : OpenRouterProvider.AVAILABLE_MODELS.lookup m = none) :
    OpenRouterProvider.resolveModel (some m) = OpenRouterProvider.DEFAULT_MODEL := by
  by_cases hm : m = ""
  · subst hm; decide
  · simp [OpenRouterProvider.resolveModel, hm, h]

/-- C2: for each adapter separately, a model hint that is absent or not a
key of that adapter's own catalog resolves silently to that adapter's
configured default: the call behaves exactly as a call with no hint (so the
unrecognized hint can never cause a failure), and any successful result
reports the default as its model field. -/
theorem chat_model_fallback (p : GroqProvider) (q : OpenRouterProvider)
    (messages : List ChatTurn) (hint : Option String) (upstream : UpstreamOutcome) :
    ((hint = none ∨ ∃ m, hint = some m ∧ GroqProvider.AVAILABLE_MODELS.lookup m = none) →
      GroqProvider.resolveModel hint = GroqProvider.DEFAULT_MODEL ∧
      p.chat messages hint upstream = p.chat messages none upstream ∧
      (∀ r, p.chat messages hint upstream = .ok r → r.model = GroqProvider.DEFAULT_MODEL)) ∧
    ((hint = none ∨ ∃ m, hint = some m ∧ OpenRouterProvider.AVAILABLE_MODELS.lookup m = none) →
      OpenRouterProvider.resolveModel hint = OpenRouterProvider.DEFAULT_MODEL ∧
      q.chat messages hint upstream = q.chat messages none upstream ∧
      (∀ r, q.chat messages hint upstream = .ok r →
        r.model = OpenRouterProvider.DEFAULT_MODEL)) := by
  constructor
  · intro h
    have hg : GroqProvider.resolveModel hint = GroqProvider.DEFAULT_MODEL := by
      rcases h with h | ⟨m, rfl, hm⟩
      · subst h; exact groq_resolveModel_none
      · exact groq_resolveModel_fallback m hm
    have hpc : p.chat messages hint upstream = p.chat messages none upstream := by
      simp only [GroqProvider.chat, hg, groq_resolveModel_none]
    refine ⟨hg, hpc, ?_⟩
    intro r hr
    cases upstream with
    | timeout => simp [GroqProvider.chat] at hr
    | httpError status body =>
      obtain ⟨e, he⟩ := groq_chat_httpError_isError p messages hint status body
      rw [he] at hr
      simp at hr
    | ok data =>
      simp only [GroqProvider.chat, hg] at hr
      cases hfc : data.firstChoiceContent with
      | error e => rw [hfc, except_bind_error] at hr; simp at hr
      | ok v =>
        rw [hfc, except_bind_ok] at hr
        cases hr
        rfl
  · intro h
    have ho : OpenRouterProvider.resolveModel hint = OpenRouterProvider.DEFAULT_MODEL := by
      rcases h with h | ⟨m, rfl, hm⟩
      · subst h; exact openrouter_resolveModel_none
      · exact openrouter_resolveModel_fallback m hm
    have hqc : q.chat messages hint upstream = q.chat messages none upstream := by
      simp only [OpenRouterProvider.chat, ho, openrouter_resolveModel_none]
    refine ⟨ho, hqc, ?_⟩
    intro r hr
    cases upstream with
    | timeout => simp [OpenRouterProvider.chat] at hr
    | httpError status body =>
      obtain ⟨e, he⟩ := openrouter_chat_httpError_isError q messages hint status body
      rw [he] at hr
      simp at hr
    | ok data =>
      simp only [OpenRouterProvider.chat, ho] at hr
      cases hk : data.lookupKey "error" with
      | some err =>
        simp only [hk] at hr
        cases hdg : err.dictGet "message" (.str "Unknown error") with
        | error e => rw [hdg, except_bind_error] at hr; simp at hr
        | ok v => rw [hdg, except_bind_ok] at hr; simp at hr
      | none =>
        simp only [hk] at hr
        cases hfc : data.firstChoiceContent with
        | error e => rw [hfc, except_bind_error] at hr; simp at hr
        | ok v =>
          rw [hfc, except_bind_ok] at hr
          cases hr
          rfl

/-- C2 witness: the hint `openai/gpt-3.5-turbo` — an OpenRouter catalog key
that is NOT in the Groq catalog — makes the Groq adapter fall back to its
default and behave as with no hint, and symmetrically the Groq catalog key
`llama-3.1-8b-instant`, unknown to the OpenRouter catalog, makes the
OpenRouter adapter fall back; successful results report each default. -/
theorem chat_model_fallback_witness :
    GroqProvider.resolveModel (some "openai/gpt-3.5-turbo") = GroqProvider.DEFAULT_MODEL ∧
    GroqProvider.chat ⟨"key"⟩ [] (some "openai/gpt-3.5-turbo") (.ok okBody) =
      GroqProvider.chat ⟨"key"⟩ [] none (.ok okBody) ∧
    (ChatResult.mk (Json.str "Use pinMode and digitalWrite.") "llama-3.1-8b-instant").model =
      GroqProvider.DEFAULT_MODEL ∧
    OpenRouterProvider.resolveModel (some "llama-3.1-8b-instant") =
      OpenRouterProvider.DEFAULT_MODEL ∧
    OpenRouterProvider.chat ⟨"key", "u", "n"⟩ [] (some "llama-3.1-8b-instant") (.ok okBody) =
      OpenRouterProvider.chat ⟨"key", "u", "n"⟩ [] none (.ok okBody) ∧
    (ChatResult.mk (Json.str "Use pinMode and digitalWrite.")
      "mistralai/mistral-7b-instruct:free").model = OpenRouterProvider.DEFAULT_MODEL := by
  have hg := (chat_model_fallback ⟨"key"⟩ ⟨"key", "u", "n"⟩ []
    (some "openai/gpt-3.5-turbo") (.ok okBody)).1
    (Or.inr ⟨"openai/gpt-3.5-turbo", rfl, rfl⟩)
  have ho := (chat_model_fallback ⟨"key"⟩ ⟨"key", "u", "n"⟩ []
    (some "llama-3.1-8b-instant") (.ok okBody)).2
    (Or.inr ⟨"llama-3.1-8b-instant", rfl, rfl⟩)
  exact ⟨hg.1, hg.2.1, hg.2.2 _ rfl, ho.1, ho.2.1, ho.2.2 _ rfl⟩

/-- `Except.map` on a success (reduction helper). -/
theorem except_map_ok {ε α β : Type} (f : α → β) (a : α) :
    (Except.ok a : Except ε α).map f = .ok (f a) := rfl

/-- `Except.map` on an error (reduction helper). -/
theorem except_map_error {ε α β : Type} (f : α → β) (e : ε) :
    (Except.error e : Except ε α).map f = .error e := rfl

/-- `Except.mapError` on a success (reduction helper). -/
theorem except_mapError_ok {ε ε' α : Type} (f : ε → ε') (a : α) :
    (Except.ok a : Except ε α).mapError f = .ok a := rfl

/-- `Except.mapError` on an error (reduction helper). -/
theorem except_mapError_error {ε ε' α : Type} (f : ε → ε') (e : ε) :
    (Except.error e : Except ε α).mapError f = .error (f e) := rfl

/-- C3 counterexample: the claim fails on the Groq adapter. On HTTP 200 with
body `\x7b"error":\x7b"message":"no route"\x7d\x7d` it raises not a
classified upstream error but the builtin `KeyError` escaping the
`data["choices"]` extraction; and on a 200 body carrying both the same error
object and valid choices it even returns a success result whose response is
populated from the reply. -/
theorem groq_error_body_not_classified :
    GroqProvider.chat ⟨"key"⟩ [] none (.ok errBody) = .error (.keyError "choices") ∧
    specClassifiedError (.keyError "choices") = false ∧
    GroqProvider.chat ⟨"key"⟩ [] none (.ok errChoicesBody) =
      .ok ⟨Json.str "Use pinMode and digitalWrite.", "llama-3.1-8b-instant"⟩ :=
  ⟨rfl, rfl, rfl⟩

/-- C3 amended: on HTTP 200 with a body containing an `error` object, the
OpenRouter adapter never returns a success result (so its `response` is never
populated from such a reply) and, for an error object that is a dict, raises
the classified `❌ OpenRouter error: ...` exception; the Groq adapter
performs no check at all for an embedded error object — its handling of a
2xx body is exactly completion extraction, so on such a body it raises an
unclassified builtin `KeyError` when the body lacks `choices`, and even
returns a success result populated from the body's choices when they are
present alongside the error object. -/
theorem error_in_200_body_handling (q : OpenRouterProvider) (p : GroqProvider)
    (messages : List ChatTurn) (hint : Option String) (data e : Json)
    (h : data.lookupKey "error" = some e) :
    (∀ r, q.chat messages hint (.ok data) ≠ .ok r) ∧
    (∀ fields, e = .obj fields →
      q.chat messages hint (.ok data) =
        .error (.exception ("❌ OpenRouter error: " ++
          (((fields.lookup "message").getD (.str "Unknown error")).pyStr))) ∧
      ∀ m, specClassifiedError (.exception m) = true) ∧
    (p.chat messages hint (.ok data) =
      (data.firstChoiceContent).map
        (fun v => ChatResult.mk v (GroqProvider.resolveModel hint))) ∧
    (data.lookupKey "choices" = none →
      p.chat messages hint (.ok data) = .error (.keyError "choices")) ∧
    (∀ v, data.firstChoiceContent = .ok v →
      p.chat messages hint (.ok data) = .ok ⟨v, GroqProvider.resolveModel hint⟩) := by
  have hmap : p.chat messages hint (.ok data) =
      (data.firstChoiceContent).map
        (fun v => ChatResult.mk v (GroqProvider.resolveModel hint)) := by
    simp only [GroqProvider.chat]
    cases hfc : data.firstChoiceContent with
    | error d => rw [except_bind_error, except_map_error]
    | ok v => rw [except_bind_ok, except_map_ok]
  refine ⟨?_, ?_, hmap, ?_, ?_⟩
  · intro r hr
    simp only [OpenRouterProvider.chat, h] at hr
    cases hdg : e.dictGet "message" (.str "Unknown error") with
    | error d => rw [hdg, except_bind_error] at hr; simp at hr
    | ok v => rw [hdg, except_bind_ok] at hr; simp at hr
  · rintro fields rfl
    refine ⟨?_, fun m => rfl⟩
    simp only [OpenRouterProvider.chat, h, Json.dictGet, except_bind_ok]
  · intro hc
    cases data with
    | obj fields =>
      simp only [Json.lookupKey] at hc
      simp only [GroqProvider.chat, Json.firstChoiceContent, Json.getItem, hc,
        except_bind_error]
    | null => simp [Json.lookupKey] at h
    | bool b => simp [Json.lookupKey] at h
    | num n => simp [Json.lookupKey] at h
    | str s => simp [Json.lookupKey] at h
    | arr xs => simp [Json.lookupKey] at h
  · intro v hv
    rw [hmap, hv, except_map_ok]

/-- C3 amended witness: on the error-only body the OpenRouter adapter raises
the classified error naming `no route` and never succeeds while the Groq
adapter raises `KeyError` on `choices`; on the body carrying both the error
object and valid choices, OpenRouter still refuses with the classified error
but Groq returns success populated from the choices. -/
theorem error_in_200_body_handling_witness :
    OpenRouterProvider.chat ⟨"key", "u", "n"⟩ [] none (.ok errBody) ≠
      .ok ⟨Json.str "no route", "mistralai/mistral-7b-instruct:free"⟩ ∧
    OpenRouterProvider.chat ⟨"key", "u", "n"⟩ [] none (.ok errBody) =
      .error (.exception "❌ OpenRouter error: no route") ∧
    GroqProvider.chat ⟨"key"⟩ [] none (.ok errBody) = .error (.keyError "choices") ∧
    OpenRouterProvider.chat ⟨"key", "u", "n"⟩ [] none (.ok errChoicesBody) =
      .error (.exception "❌ OpenRouter error: no route") ∧
    GroqProvider.chat ⟨"key"⟩ [] none (.ok errChoicesBody) =
      .ok ⟨Json.str "Use pinMode and digitalWrite.", "llama-3.1-8b-instant"⟩ := by
  have h1 := error_in_200_body_handling ⟨"key", "u", "n"⟩ ⟨"key"⟩ [] none errBody
    (.obj [("message", .str "no route")]) rfl
  have h2 := error_in_200_body_handling ⟨"key", "u", "n"⟩ ⟨"key"⟩ [] none errChoicesBody
    (.obj [("message", .str "no route")]) rfl
  exact ⟨h1.1 _, (h1.2.1 _ rfl).1, h1.2.2.2.1 rfl, (h2.2.1 _ rfl).1,
    h2.2.2.2.2 _ rfl⟩

/-- C5: a request whose provider identifier lowercases to neither `groq` nor
`openrouter` fails with HTTP 400 whose detail names both valid identifiers,
and this happens for every environment and every upstream behavior — the
endpoint result does not depend on either, so no adapter is constructed or
invoked. -/
theorem unknown_provider_rejected (env : Env) (upstream : UpstreamOutcome)
    (request : ChatRequest)
    (h1 : (pyLower request.provider) ≠ "groq")
    (h2 : (pyLower request.provider) ≠ "openrouter") :
    get_provider env request.provider =
      .error (.http { status_code := 400
                      detail := "Unknown provider: \x27" ++ (pyLower request.provider) ++
                        "\x27. Use: groq | openrouter" }) ∧
    chat env upstream request =
      .error { status_code := 400
               detail := "Unknown provider: \x27" ++ (pyLower request.provider) ++
                 "\x27. Use: groq | openrouter" } ∧
    (∀ (env2 : Env) (upstream2 : UpstreamOutcome),
      chat env2 upstream2 request = chat env upstream request) := by
  have hg : ∀ e : Env, get_provider e request.provider =
      .error (.http { status_code := 400
                      detail := "Unknown provider: \x27" ++ (pyLower request.provider) ++
                        "\x27. Use: groq | openrouter" }) := by
    intro e
    simp only [get_provider]
    rw [if_neg h1, if_neg h2]
  have hc : ∀ (e : Env) (u : UpstreamOutcome), chat e u request =
      .error { status_code := 400
               detail := "Unknown provider: \x27" ++ (pyLower request.provider) ++
                 "\x27. Use: groq | openrouter" } := by
    intro e u
    have hb : chatBody e u request =
        .error (.http { status_code := 400
                        detail := "Unknown provider: \x27" ++ (pyLower request.provider) ++
                          "\x27. Use: groq | openrouter" }) := by
      simp only [chatBody, hg e, except_bind_error]
    simp only [chat, hb]
  exact ⟨hg env, hc env upstream,
    fun env2 upstream2 => (hc env2 upstream2).trans (hc env upstream).symm⟩

/-- C5 witness: the unregistered identifier `anthropic` is rejected with 400
naming `groq | openrouter`, in an empty environment with an upstream that
would time out if it were ever reached, and the result is the same under a
fully populated environment and a successful upstream. -/
theorem unknown_provider_rejected_witness :
    get_provider (fun _ => none) "anthropic" =
      .error (.http { status_code := 400
                      detail := "Unknown provider: \x27anthropic\x27. Use: groq | openrouter" }) ∧
    chat (fun _ => none) .timeout ⟨"hi", "anthropic", none, []⟩ =
      .error { status_code := 400
               detail := "Unknown provider: \x27anthropic\x27. Use: groq | openrouter" } ∧
    chat (fun _ => some "key") (.ok okBody) ⟨"hi", "anthropic", none, []⟩ =
      chat (fun _ => none) .timeout ⟨"hi", "anthropic", none, []⟩ := by
  have h := unknown_provider_rejected (fun _ => none) .timeout
    ⟨"hi", "anthropic", none, []⟩ (by decide) (by decide)
  exact ⟨h.1, h.2.1, h.2.2 (fun _ => some "key") (.ok okBody)⟩

/-- C6: any error an adapter raises is wrapped by the endpoint as HTTP 500
carrying the adapter's message verbatim (no retry, no local recovery — the
result is the same for every environment and this single upstream outcome);
in particular an upstream HTTP 401 makes the Groq adapter raise the
authentication message referencing the invalid credential. -/
theorem adapter_error_wrapped (env : Env) (upstream : UpstreamOutcome)
    (request : ChatRequest) (p : Provider) (e : PyError)
    (h1 : get_provider env request.provider = .ok p)
    (h2 : Provider.chat p (buildMessages request) request.model upstream = .error e) :
    chat env upstream request = .error { status_code := 500, detail := e.str } ∧
    (∀ key messages hint body,
      GroqProvider.chat ⟨key⟩ messages hint (.httpError 401 body) =
        .error (.exception "🔑 Invalid GROQ_API_KEY. Check your .env file.")) := by
  have hb : chatBody env upstream request = .error (.py e) := by
    simp only [chatBody, h1, except_bind_ok, h2, except_mapError_error, except_bind_error]
  exact ⟨by simp only [chat, hb], fun key messages hint body => rfl⟩

/-- C6 witness: with a configured Groq key and a 401 from upstream, the
endpoint fails with HTTP 500 carrying the adapter's invalid-credential
message. -/
theorem adapter_error_wrapped_witness :
    chat (fun k => if k = "GROQ_API_KEY" then some "key" else none)
      (.httpError 401 "Unauthorized") ⟨"hi", "groq", none, []⟩ =
      .error { status_code := 500,
               detail := "🔑 Invalid GROQ_API_KEY. Check your .env file." } :=
  (adapter_error_wrapped (fun k => if k = "GROQ_API_KEY" then some "key" else none)
    (.httpError 401 "Unauthorized") ⟨"hi", "groq", none, []⟩
    (.groq ⟨"key"⟩) (.exception "🔑 Invalid GROQ_API_KEY. Check your .env file.")
    rfl rfl).1

/-- C7: whenever `data["choices"][0]["message"]["content"]` extraction on the
2xx body yields a value, the Groq adapter (and the OpenRouter adapter, in the
absence of an embedded error object) returns exactly that value as the
result's `response` entry with no reformatting; and the endpoint returns a
successful adapter result's text to the caller unchanged as the `response`
field. -/
theorem response_text_verbatim (p : GroqProvider) (q : OpenRouterProvider)
    (messages : List ChatTurn) (hint : Option String) (data v : Json)
    (h : data.firstChoiceContent = .ok v) :
    p.chat messages hint (.ok data) = .ok ⟨v, GroqProvider.resolveModel hint⟩ ∧
    (data.lookupKey "error" = none →
      q.chat messages hint (.ok data) = .ok ⟨v, OpenRouterProvider.resolveModel hint⟩) ∧
    (∀ env upstream request prov res s,
      get_provider env request.provider = .ok prov →
      Provider.chat prov (buildMessages request) request.model upstream = .ok res →
      res.response = .str s →
      chat env upstream request = .ok ⟨s, request.provider, res.model⟩) := by
  refine ⟨?_, ?_, ?_⟩
  · simp only [GroqProvider.chat, h, except_bind_ok]
  · intro he
    simp only [OpenRouterProvider.chat, he, h, except_bind_ok]
  · intro env upstream request prov res s hgp hpc hres
    have hb : chatBody env upstream request = .ok ⟨s, request.provider, res.model⟩ := by
      simp only [chatBody, hgp, except_bind_ok, hpc, except_mapError_ok,
        mkChatResponse, hres]
    simp only [chat, hb]

/-- C7 witness: the spec's scenario — a stub upstream returning the
completion `Use pinMode and digitalWrite.` — round-trips verbatim through the
Groq adapter and through the endpoint. -/
theorem response_text_verbatim_witness :
    GroqProvider.chat ⟨"key"⟩ [] none (.ok okBody) =
      .ok ⟨Json.str "Use pinMode and digitalWrite.", "llama-3.1-8b-instant"⟩ ∧
    chat (fun k => if k = "GROQ_API_KEY" then some "key" else none) (.ok okBody)
      ⟨"How do I blink an LED?", "groq", none, []⟩ =
      .ok ⟨"Use pinMode and digitalWrite.", "groq", "llama-3.1-8b-instant"⟩ := by
  have h := response_text_verbatim ⟨"key"⟩ ⟨"key", "u", "n"⟩ [] none okBody
    (.str "Use pinMode and digitalWrite.") rfl
  exact ⟨h.1,
    h.2.2 (fun k => if k = "GROQ_API_KEY" then some "key" else none) (.ok okBody)
      ⟨"How do I blink an LED?", "groq", none, []⟩ (.groq ⟨"key"⟩)
      ⟨.str "Use pinMode and digitalWrite.", "llama-3.1-8b-instant"⟩
      "Use pinMode and digitalWrite." rfl rfl rfl⟩

/-- C8: for each adapter, a missing or empty credential fails that adapter's
construction with its `ValueError` (so a request routed to it fails with 500
identically for every upstream behavior — the check happens at construction,
before any chat call), while the other adapter's construction succeeds
whenever its own credential is present, regardless of the missing one. -/
theorem missing_credential_eager (env : Env) :
    ((env "GROQ_API_KEY" = none ∨ env "GROQ_API_KEY" = some "") →
      GroqProvider.init env =
        .error (.valueError ("❌ GROQ_API_KEY not found!\n" ++
          "Get your free key from: https://console.groq.com/keys\n" ++
          "Then add it to your .env file: GROQ_API_KEY=your_key_here")) ∧
      (∀ upstream request, request.provider = "groq" →
        chat env upstream request =
          .error { status_code := 500
                   detail := ("❌ GROQ_API_KEY not found!\n" ++
                     "Get your free key from: https://console.groq.com/keys\n" ++
                     "Then add it to your .env file: GROQ_API_KEY=your_key_here") }) ∧
      (∀ k, env "OPENROUTER_API_KEY" = some k → k ≠ "" →
        OpenRouterProvider.init env =
          .ok { api_key := k
                site_url := (env "SITE_URL").getD "http://localhost:8000"
                site_name := (env "SITE_NAME").getD "Arduino Chatbot" })) ∧
    ((env "OPENROUTER_API_KEY" = none ∨ env "OPENROUTER_API_KEY" = some "") →
      OpenRouterProvider.init env =
        .error (.valueError ("❌ OPENROUTER_API_KEY not found!\n" ++
          "Get your free key from: https://openrouter.ai/keys\n" ++
          "Then add it to your .env file: OPENROUTER_API_KEY=your_key_here")) ∧
      (∀ upstream request, request.provider = "openrouter" →
        chat env upstream request =
          .error { status_code := 500
                   detail := ("❌ OPENROUTER_API_KEY not found!\n" ++
                     "Get your free key from: https://openrouter.ai/keys\n" ++
                     "Then add it to your .env file: OPENROUTER_API_KEY=your_key_here") }) ∧
      (∀ k, env "GROQ_API_KEY" = some k → k ≠ "" →
        GroqProvider.init env = .ok { api_key := k })) := by
  constructor
  · intro h
    have hinit : GroqProvider.init env =
        .error (.valueError ("❌ GROQ_API_KEY not found!\n" ++
          "Get your free key from: https://console.groq.com/keys\n" ++
          "Then add it to your .env file: GROQ_API_KEY=your_key_here")) := by
      rcases h with h | h <;> simp [GroqProvider.init, h]
    refine ⟨hinit, ?_, ?_⟩
    · intro upstream request hp
      have hgp : get_provider env request.provider =
          .error (.py (.valueError ("❌ GROQ_API_KEY not found!\n" ++
            "Get your free key from: https://console.groq.com/keys\n" ++
            "Then add it to your .env file: GROQ_API_KEY=your_key_here"))) := by
        rw [get_provider, hp]
        simp only [show pyLower "groq" = "groq" from rfl, if_pos rfl, if_true, hinit,
          except_map_error, except_mapError_error]
      have hb : chatBody env upstream request =
          .error (.py (.valueError ("❌ GROQ_API_KEY not found!\n" ++
            "Get your free key from: https://console.groq.com/keys\n" ++
            "Then add it to your .env file: GROQ_API_KEY=your_key_here"))) := by
        simp only [chatBody, hgp, except_bind_error]
      simp only [chat, hb]
      rfl
    · intro k hk hk2
      simp [OpenRouterProvider.init, hk, hk2]
  · intro h
    have hinit : OpenRouterProvider.init env =
        .error (.valueError ("❌ OPENROUTER_API_KEY not found!\n" ++
          "Get your free key from: https://openrouter.ai/keys\n" ++
          "Then add it to your .env file: OPENROUTER_API_KEY=your_key_here")) := by
      rcases h with h | h <;> simp [OpenRouterProvider.init, h]
    refine ⟨hinit, ?_, ?_⟩
    · intro upstream request hp
      have hgp : get_provider env request.provider =
          .error (.py (.valueError ("❌ OPENROUTER_API_KEY not found!\n" ++
            "Get your free key from: https://openrouter.ai/keys\n" ++
            "Then add it to your .env file: OPENROUTER_API_KEY=your_key_here"))) := by
        rw [get_provider, hp]
        simp only [show pyLower "openrouter" = "openrouter" from rfl]
        rw [if_neg (by decide : ¬ ("openrouter" = "groq"))]
        simp only [if_pos rfl, if_true, hinit, except_map_error, except_mapError_error]
      have hb : chatBody env upstream request =
          .error (.py (.valueError ("❌ OPENROUTER_API_KEY not found!\n" ++
            "Get your free key from: https://openrouter.ai/keys\n" ++
            "Then add it to your .env file: OPENROUTER_API_KEY=your_key_here"))) := by
        simp only [chatBody, hgp, except_bind_error]
      simp only [chat, hb]
      rfl
    · intro k hk hk2
      simp [GroqProvider.init, hk, hk2]

/-- C8 witness: in an environment holding only `OPENROUTER_API_KEY`, Groq
construction fails with its `ValueError`, a groq-routed request fails with
500 before any upstream call (the upstream here would time out if reached)
and the OpenRouter adapter constructs fine; symmetrically, with only
`GROQ_API_KEY` set, OpenRouter construction fails with its `ValueError`, an
openrouter-routed request fails with 500, and the Groq adapter constructs
fine. -/
theorem missing_credential_eager_witness :
    GroqProvider.init (fun k => if k = "OPENROUTER_API_KEY" then some "orkey" else none) =
      .error (.valueError ("❌ GROQ_API_KEY not found!\n" ++
        "Get your free key from: https://console.groq.com/keys\n" ++
        "Then add it to your .env file: GROQ_API_KEY=your_key_here")) ∧
    chat (fun k => if k = "OPENROUTER_API_KEY" then some "orkey" else none) .timeout
      ⟨"hi", "groq", none, []⟩ =
      .error { status_code := 500
               detail := ("❌ GROQ_API_KEY not found!\n" ++
                 "Get your free key from: https://console.groq.com/keys\n" ++
                 "Then add it to your .env file: GROQ_API_KEY=your_key_here") } ∧
    OpenRouterProvider.init (fun k => if k = "OPENROUTER_API_KEY" then some "orkey" else none) =
      .ok { api_key := "orkey"
            site_url := "http://localhost:8000"
            site_name := "Arduino Chatbot" } ∧
    OpenRouterProvider.init (fun k => if k = "GROQ_API_KEY" then some "gkey" else none) =
      .error (.valueError ("❌ OPENROUTER_API_KEY not found!\n" ++
        "Get your free key from: https://openrouter.ai/keys\n" ++
        "Then add it to your .env file: OPENROUTER_API_KEY=your_key_here")) ∧
    chat (fun k => if k = "GROQ_API_KEY" then some "gkey" else none) .timeout
      ⟨"hi", "openrouter", none, []⟩ =
      .error { status_code := 500
               detail := ("❌ OPENROUTER_API_KEY not found!\n" ++
                 "Get your free key from: https://openrouter.ai/keys\n" ++
                 "Then add it to your .env file: OPENROUTER_API_KEY=your_key_here") } ∧
    GroqProvider.init (fun k => if k = "GROQ_API_KEY" then some "gkey" else none) =
      .ok { api_key := "gkey" } := by
  have hA := (missing_credential_eager
    (fun k => if k = "OPENROUTER_API_KEY" then some "orkey" else none)).1 (Or.inl rfl)
  have hB := (missing_credential_eager
    (fun k => if k = "GROQ_API_KEY" then some "gkey" else none)).2 (Or.inl rfl)
  exact ⟨hA.1, hA.2.1 .timeout ⟨"hi", "groq", none, []⟩ rfl, hA.2.2 "orkey" rfl (by decide),
    hB.1, hB.2.1 .timeout ⟨"hi", "openrouter", none, []⟩ rfl, hB.2.2 "gkey" rfl (by decide)⟩

/-- A successful endpoint body always reports the request's own provider
string in the `provider` field. -/
theorem chatBody_provider (env : Env) (upstream : UpstreamOutcome)
    (request : ChatRequest) (r : ChatResponse)
    (h : chatBody env upstream request = .ok r) :
    r.provider = request.provider := by
  cases hgp : get_provider env request.provider with
  | error e => simp only [chatBody, hgp, except_bind_error] at h; simp at h
  | ok p =>
    cases hpc : Provider.chat p (buildMessages request) request.model upstream with
    | error e =>
      simp only [chatBody, hgp, except_bind_ok, hpc, except_mapError_error,
        except_bind_error] at h
      simp at h
    | ok result =>
      simp only [chatBody, hgp, except_bind_ok, hpc, except_mapError_ok,
        except_bind_ok] at h
      cases hres : result.response <;>
        simp only [mkChatResponse, hres, except_mapError_error, except_mapError_ok] at h
      case str s =>
        cases h
        rfl
      all_goals simp at h

/-- C10: a request body that omits the provider field defaults it to `groq`;
such a request resolves to the Groq adapter (given a configured Groq
credential), and any successful response carries `groq` in its provider
field. -/
theorem omitted_provider_defaults_groq (message : String) (env : Env)
    (upstream : UpstreamOutcome) (k : String)
    (hk : env "GROQ_API_KEY" = some k) (hk2 : k ≠ "") :
    (ChatRequest.fromFields message none none none).provider = "groq" ∧
    get_provider env (ChatRequest.fromFields message none none none).provider =
      .ok (.groq { api_key := k }) ∧
    (∀ res, chat env upstream (ChatRequest.fromFields message none none none) = .ok res →
      res.provider = "groq") := by
  refine ⟨rfl, ?_, ?_⟩
  · rw [show (ChatRequest.fromFields message none none none).provider = "groq" from rfl,
      get_provider]
    simp only [show pyLower "groq" = "groq" from rfl, if_pos rfl, if_true,
      GroqProvider.init, hk, if_neg hk2, except_map_ok, except_mapError_ok]
  · intro res hres
    unfold chat at hres
    cases hb : chatBody env upstream (ChatRequest.fromFields message none none none) with
    | error e => cases e <;> simp [hb] at hres
    | ok r =>
      rw [hb] at hres
      cases hres
      exact chatBody_provider _ _ _ _ hb

/-- C10 witness: omitting the provider field routes the spec's scenario
request to the Groq adapter and the successful response reports provider
`groq`. -/
theorem omitted_provider_defaults_groq_witness :
    (ChatRequest.fromFields "How do I blink an LED?" none none none).provider = "groq" ∧
    get_provider (fun k => if k = "GROQ_API_KEY" then some "key" else none)
      (ChatRequest.fromFields "How do I blink an LED?" none none none).provider =
      .ok (.groq { api_key := "key" }) ∧
    ChatResponse.provider
      ⟨"Use pinMode and digitalWrite.", "groq", "llama-3.1-8b-instant"⟩ = "groq" := by
  have h := omitted_provider_defaults_groq "How do I blink an LED?"
    (fun k => if k = "GROQ_API_KEY" then some "key" else none) (.ok okBody) "key"
    rfl (by decide)
  exact ⟨h.1, h.2.1, h.2.2 _ rfl⟩
